import Mathlib

/-!
Verification of the CSAT calculator (`src/csat_calculator.py`).

The script computes, from five per-level response counts `res_list`
(levels 1..5, non-negative integers):

* Part 1: `csat_score = Σ rating·count / Σ count` and
  `csat_percent = Σ_{rating ≥ 4} count / Σ count`;
* Part 2: `degrees_freedom = Σ count − 1`, the sample standard deviation
  `std_sample`, the standard errors `std_csat_score`, `std_csat_percent`,
  and t-based confidence intervals via `stats.t.interval`;
* Part 3: the same intervals with a finite population correction factor
  `fpc = sqrt((survey_total − survey_count)/(survey_total − 1))`, where the
  factor is replaced by `max(fpc, default_zero)` with `default_zero = 1e-8`.

Exact rational quantities are embedded over `ℚ`; quantities involving a
square root are embedded over `ℝ`.  `stats.t.interval` is scipy library code
(not part of this repository), so it is modelled from the spec, parameterized
by the t critical-value function `tq`.
-/

namespace CSATCalc

open Finset

/-- `n_level = 5`: the survey has five rating levels. -/
def n_level : ℕ := 5

/-- The `rating` column of `df_survey`: `range(1, 6)`, i.e. level `i+1` at
row `i`. -/
def rating (i : Fin 5) : ℕ := (i : ℕ) + 1

/-- `default_response = [2, 1, 2, 3, 2]`, the sidebar default counts. -/
def default_response : Fin 5 → ℕ := ![2, 1, 2, 3, 2]

/-- `df_survey['count'].sum()` (called `survey_count` in Part 2). -/
def surveyCount (count : Fin 5 → ℕ) : ℕ := ∑ i, count i

/-- `(df_survey['rating'] * df_survey['count']).sum()`, the numerator of
`csat_score`. -/
def ratingCountSum (count : Fin 5 → ℕ) : ℕ := ∑ i, rating i * count i

/-- `csat_score = (rating·count).sum() / count.sum()`. -/
def csat_score (count : Fin 5 → ℕ) : ℚ :=
  (ratingCountSum count : ℚ) / (surveyCount count : ℚ)

/-- `df_survey.query('rating >= 4')['count'].sum()`, the numerator of
`csat_percent`. -/
def topBoxCount (count : Fin 5 → ℕ) : ℕ :=
  ∑ i ∈ Finset.univ.filter (fun i => 4 ≤ rating i), count i

/-- `csat_percent = query('rating >= 4')['count'].sum() / count.sum()`. -/
def csat_percent (count : Fin 5 → ℕ) : ℚ :=
  (topBoxCount count : ℚ) / (surveyCount count : ℚ)

/-- `degrees_freedom = survey_count - 1` (Python integer subtraction, so the
value is `-1` when all counts are zero; hence `ℤ`, not `ℕ`). -/
def degrees_freedom (count : Fin 5 → ℕ) : ℤ :=
  (surveyCount count : ℤ) - 1

lemma surveyCount_eq (count : Fin 5 → ℕ) :
    surveyCount count = count 0 + count 1 + count 2 + count 3 + count 4 := by
  simp [surveyCount, Fin.sum_univ_five]

lemma ratingCountSum_eq (count : Fin 5 → ℕ) :
    ratingCountSum count =
      1 * count 0 + 2 * count 1 + 3 * count 2 + 4 * count 3 + 5 * count 4 := by
  simp [ratingCountSum, Fin.sum_univ_five, rating,
    show ((3 : Fin 5) : ℕ) = 3 from rfl, show ((4 : Fin 5) : ℕ) = 4 from rfl]

lemma topBox_filter :
    Finset.univ.filter (fun i : Fin 5 => 4 ≤ rating i) = {3, 4} := by
  decide

lemma topBoxCount_eq (count : Fin 5 → ℕ) :
    topBoxCount count = count 3 + count 4 := by
  rw [topBoxCount, topBox_filter]
  rw [Finset.sum_pair (by decide : (3 : Fin 5) ≠ 4)]

lemma le_ratingCountSum (count : Fin 5 → ℕ) :
    surveyCount count ≤ ratingCountSum count := by
  refine Finset.sum_le_sum fun i _ => ?_
  have h1 : 1 ≤ rating i := Nat.succ_le_succ (Nat.zero_le _)
  calc count i = 1 * count i := (one_mul _).symm
    _ ≤ rating i * count i := Nat.mul_le_mul_right _ h1

lemma ratingCountSum_le (count : Fin 5 → ℕ) :
    ratingCountSum count ≤ 5 * surveyCount count := by
  unfold ratingCountSum surveyCount
  rw [Finset.mul_sum]
  refine Finset.sum_le_sum fun i _ => ?_
  have h5 : rating i ≤ 5 := by
    have := i.isLt
    simp only [rating]
    omega
  exact Nat.mul_le_mul_right _ h5

lemma topBoxCount_le (count : Fin 5 → ℕ) :
    topBoxCount count ≤ surveyCount count :=
  Finset.sum_le_sum_of_subset (Finset.filter_subset _ _)

/-- `example1`: the counts `[1, 1, 2, 3, 2]` of the spec's Example 1. -/
def example1 : Fin 5 → ℕ := ![1, 1, 2, 3, 2]

/-- C1: for every distribution of 5 non-negative counts with `N ≥ 1`, the
program computes `score = Σ level·count / N ∈ [1, 5]` and
`percent = (count₄ + count₅)/N ∈ [0, 1]` (threshold 4 hard-coded, i.e. the
top two of five levels); at counts `[1,1,2,3,2]` it returns `N = 9`,
`score = 31/9` and `percent = 5/9`. -/
theorem claim_C1 (count : Fin 5 → ℕ) (h : 1 ≤ surveyCount count) :
    csat_score count = (∑ i, (rating i : ℚ) * count i) / (surveyCount count : ℚ) ∧
    1 ≤ csat_score count ∧ csat_score count ≤ 5 ∧
    csat_percent count = ((count 3 : ℚ) + count 4) / (surveyCount count : ℚ) ∧
    0 ≤ csat_percent count ∧ csat_percent count ≤ 1 ∧
    surveyCount example1 = 9 ∧ csat_score example1 = 31 / 9 ∧
    csat_percent example1 = 5 / 9 := by
  have hN : (0 : ℚ) < (surveyCount count : ℚ) := by exact_mod_cast h
  have e1 : ratingCountSum example1 = 31 := by decide
  have e2 : surveyCount example1 = 9 := by decide
  have e3 : topBoxCount example1 = 5 := by decide
  refine ⟨?_, ?_, ?_, ?_, ?_, ?_, e2, ?_, ?_⟩
  · unfold csat_score ratingCountSum
    push_cast
    rfl
  · rw [csat_score, one_le_div hN]
    exact_mod_cast le_ratingCountSum count
  · rw [csat_score, div_le_iff₀ hN]
    calc (ratingCountSum count : ℚ) ≤ ((5 * surveyCount count : ℕ) : ℚ) := by
          exact_mod_cast ratingCountSum_le count
      _ = 5 * (surveyCount count : ℚ) := by push_cast; ring
  · rw [csat_percent, topBoxCount_eq]
    push_cast
    rfl
  · exact div_nonneg (by positivity) hN.le
  · rw [csat_percent, div_le_one hN]
    exact_mod_cast topBoxCount_le count
  · rw [csat_score, e1, e2]
    norm_num
  · rw [csat_percent, e3, e2]
    norm_num

/-- Witness for C1 at the spec's Example 1 counts. -/
theorem claim_C1_witness :
    1 ≤ surveyCount example1 ∧
    (csat_score example1 =
        (∑ i, (rating i : ℚ) * example1 i) / (surveyCount example1 : ℚ) ∧
      1 ≤ csat_score example1 ∧ csat_score example1 ≤ 5 ∧
      csat_percent example1 =
        ((example1 3 : ℚ) + example1 4) / (surveyCount example1 : ℚ) ∧
      0 ≤ csat_percent example1 ∧ csat_percent example1 ≤ 1 ∧
      surveyCount example1 = 9 ∧ csat_score example1 = 31 / 9 ∧
      csat_percent example1 = 5 / 9) :=
  ⟨by decide, claim_C1 example1 (by decide)⟩

noncomputable section

/-- Row `i` of `df_survey_1`'s `diff2` column:
`diff = rating - csat_score`, `diff2 = diff ** 2 * count`. -/
def diff2 (count : Fin 5 → ℕ) (i : Fin 5) : ℝ :=
  ((rating i : ℝ) - ((csat_score count : ℚ) : ℝ)) ^ 2 * (count i : ℝ)

/-- `std_sample = np.sqrt(df_survey_1['diff2'].sum() / degrees_freedom)`. -/
def std_sample (count : Fin 5 → ℕ) : ℝ :=
  Real.sqrt ((∑ i, diff2 count i) / ((degrees_freedom count : ℤ) : ℝ))

/-- `std_csat_score = std_sample / np.sqrt(survey_count)`. -/
def std_csat_score (count : Fin 5 → ℕ) : ℝ :=
  std_sample count / Real.sqrt (surveyCount count)

/-- `std_csat_percent = np.sqrt(csat_percent * (1-csat_percent) / survey_count)`. -/
def std_csat_percent (count : Fin 5 → ℕ) : ℝ :=
  Real.sqrt (((csat_percent count : ℚ) : ℝ) * (1 - ((csat_percent count : ℚ) : ℝ))
    / (surveyCount count : ℝ))

/-- Modelled from the spec: `stats.t.interval(conf, df, loc, scale)` is scipy
library code, not part of this repository.  Per the spec (§4.4) it produces
the two-sided interval `(point − t_crit·SE, point + t_crit·SE)`, where
`t_crit` is the Student's t critical value at the given confidence level and
degrees of freedom; the critical-value function is the parameter `tq`. -/
def t_interval (tq : ℝ → ℤ → ℝ) (conf : ℝ) (df : ℤ) (loc scale : ℝ) : ℝ × ℝ :=
  (loc - tq conf df * scale, loc + tq conf df * scale)

/-- Part 2: `(csat_score_low, csat_score_high) = stats.t.interval(conf_level,
degrees_freedom, csat_score, std_csat_score)`. -/
def csat_score_interval (tq : ℝ → ℤ → ℝ) (conf : ℝ) (count : Fin 5 → ℕ) : ℝ × ℝ :=
  t_interval tq conf (degrees_freedom count) ((csat_score count : ℚ) : ℝ)
    (std_csat_score count)

/-- Part 2: `(csat_percent_low, csat_percent_high) = stats.t.interval(conf_level,
degrees_freedom, csat_percent, std_csat_percent)`. -/
def csat_percent_interval (tq : ℝ → ℤ → ℝ) (conf : ℝ) (count : Fin 5 → ℕ) : ℝ × ℝ :=
  t_interval tq conf (degrees_freedom count) ((csat_percent count : ℚ) : ℝ)
    (std_csat_percent count)

/-- The argument of the square root in `fpc`:
`(survey_total - survey_count) / (survey_total - 1)`. -/
def fpc_arg (count : Fin 5 → ℕ) (survey_total : ℕ) : ℝ :=
  ((survey_total : ℝ) - (surveyCount count : ℝ)) / ((survey_total : ℝ) - 1)

/-- `fpc = np.sqrt((survey_total - survey_count) / (survey_total - 1))`. -/
def fpc (count : Fin 5 → ℕ) (survey_total : ℕ) : ℝ :=
  Real.sqrt (fpc_arg count survey_total)

/-- `default_zero = 0.00000001`. -/
def default_zero : ℝ := 0.00000001

/-- The factor actually applied to each standard error in Part 3:
`max(fpc, default_zero)`. -/
def fpc_factor (count : Fin 5 → ℕ) (survey_total : ℕ) : ℝ :=
  max (fpc count survey_total) default_zero

/-- Part 3: `stats.t.interval(conf_level, degrees_freedom, csat_score,
std_csat_score * max(fpc, default_zero))`. -/
def csat_score_interval_fpc (tq : ℝ → ℤ → ℝ) (conf : ℝ) (count : Fin 5 → ℕ)
    (survey_total : ℕ) : ℝ × ℝ :=
  t_interval tq conf (degrees_freedom count) ((csat_score count : ℚ) : ℝ)
    (std_csat_score count * fpc_factor count survey_total)

/-- Part 3: `stats.t.interval(conf_level, degrees_freedom, csat_percent,
std_csat_percent * max(fpc, default_zero))`. -/
def csat_percent_interval_fpc (tq : ℝ → ℤ → ℝ) (conf : ℝ) (count : Fin 5 → ℕ)
    (survey_total : ℕ) : ℝ × ℝ :=
  t_interval tq conf (degrees_freedom count) ((csat_percent count : ℚ) : ℝ)
    (std_csat_percent count * fpc_factor count survey_total)

/-- Width of a returned interval `(low, high)`. -/
def width (iv : ℝ × ℝ) : ℝ := iv.2 - iv.1

end

lemma width_t_interval (tq : ℝ → ℤ → ℝ) (conf : ℝ) (df : ℤ) (loc scale : ℝ) :
    width (t_interval tq conf df loc scale) = 2 * (tq conf df * scale) := by
  simp only [width, t_interval]
  ring

lemma std_sample_nonneg (count : Fin 5 → ℕ) : 0 ≤ std_sample count :=
  Real.sqrt_nonneg _

lemma std_csat_score_nonneg (count : Fin 5 → ℕ) : 0 ≤ std_csat_score count :=
  div_nonneg (std_sample_nonneg count) (Real.sqrt_nonneg _)

lemma std_csat_percent_nonneg (count : Fin 5 → ℕ) : 0 ≤ std_csat_percent count :=
  Real.sqrt_nonneg _

lemma default_zero_pos : 0 < default_zero := by
  norm_num [default_zero]

lemma fpc_factor_pos (count : Fin 5 → ℕ) (survey_total : ℕ) :
    0 < fpc_factor count survey_total :=
  lt_of_lt_of_le default_zero_pos (le_max_right _ _)

/-- C2: for every distribution with `N ≥ 2`, the sample standard deviation is
`sqrt(Σ count·(level − score)² / (N − 1))`, the standard error of the score is
that standard deviation over `sqrt(N)`, and the standard error of the percent
is `sqrt(percent·(1 − percent)/N)`. -/
theorem claim_C2 (count : Fin 5 → ℕ) (h : 2 ≤ surveyCount count) :
    std_sample count =
      Real.sqrt ((∑ i, (count i : ℝ) * ((rating i : ℝ) - ((csat_score count : ℚ) : ℝ)) ^ 2)
        / ((surveyCount count : ℝ) - 1)) ∧
    std_csat_score count = std_sample count / Real.sqrt (surveyCount count) ∧
    std_csat_percent count =
      Real.sqrt (((csat_percent count : ℚ) : ℝ) * (1 - ((csat_percent count : ℚ) : ℝ))
        / (surveyCount count : ℝ)) := by
  refine ⟨?_, rfl, rfl⟩
  unfold std_sample
  congr 1
  rw [show ((degrees_freedom count : ℤ) : ℝ) = (surveyCount count : ℝ) - 1 by
    unfold degrees_freedom; push_cast; ring]
  congr 1
  exact Finset.sum_congr rfl fun i _ => mul_comm _ _

/-- Witness for C2 at the sidebar default counts `[2,1,2,3,2]` (`N = 10`). -/
theorem claim_C2_witness :
    2 ≤ surveyCount default_response ∧
    (std_sample default_response =
      Real.sqrt ((∑ i, (default_response i : ℝ) *
          ((rating i : ℝ) - ((csat_score default_response : ℚ) : ℝ)) ^ 2)
        / ((surveyCount default_response : ℝ) - 1)) ∧
    std_csat_score default_response =
      std_sample default_response / Real.sqrt (surveyCount default_response) ∧
    std_csat_percent default_response =
      Real.sqrt (((csat_percent default_response : ℚ) : ℝ) *
          (1 - ((csat_percent default_response : ℚ) : ℝ))
        / (surveyCount default_response : ℝ))) :=
  ⟨by decide, claim_C2 default_response (by decide)⟩

/-- C3: the interval builder returns exactly
`(point − t_crit·SE, point + t_crit·SE)` — centred on the point estimate with
half-width `t_crit·SE` — and the program instantiates it with
`df = N − 1` and each metric's own standard error; at the default counts
(`N = 10`) the degrees of freedom passed to the t distribution are `9`, so the
multiplier is the t quantile at 9 degrees of freedom, not a fixed constant. -/
theorem claim_C3 (tq : ℝ → ℤ → ℝ) (conf : ℝ) (count : Fin 5 → ℕ)
    (df : ℤ) (point se : ℝ) (h1 : 0 < conf) (h2 : conf < 1) (h3 : 1 ≤ df) :
    t_interval tq conf df point se
      = (point - tq conf df * se, point + tq conf df * se) ∧
    (t_interval tq conf df point se).1 + (t_interval tq conf df point se).2
      = 2 * point ∧
    width (t_interval tq conf df point se) = 2 * (tq conf df * se) ∧
    csat_score_interval tq conf count
      = t_interval tq conf ((surveyCount count : ℤ) - 1)
          ((csat_score count : ℚ) : ℝ) (std_csat_score count) ∧
    csat_percent_interval tq conf count
      = t_interval tq conf ((surveyCount count : ℤ) - 1)
          ((csat_percent count : ℚ) : ℝ) (std_csat_percent count) ∧
    degrees_freedom default_response = 9 := by
  refine ⟨rfl, ?_, width_t_interval tq conf df point se, rfl, rfl, by decide⟩
  simp only [t_interval]
  ring

/-- Witness for C3 at `conf = 0.95`, `df = 9`, the default counts and a
concrete critical-value function. -/
theorem claim_C3_witness :
    ((0 : ℝ) < 0.95 ∧ (0.95 : ℝ) < 1 ∧ (1 : ℤ) ≤ 9) ∧
    (t_interval (fun c _ => c) 0.95 9 (3.8 : ℝ) (0.5 : ℝ)
      = (3.8 - (0.95 : ℝ) * 0.5, 3.8 + (0.95 : ℝ) * 0.5) ∧
    (t_interval (fun c _ => c) 0.95 9 (3.8 : ℝ) (0.5 : ℝ)).1
        + (t_interval (fun c _ => c) 0.95 9 (3.8 : ℝ) (0.5 : ℝ)).2
      = 2 * (3.8 : ℝ) ∧
    width (t_interval (fun c _ => c) 0.95 9 (3.8 : ℝ) (0.5 : ℝ))
      = 2 * ((0.95 : ℝ) * 0.5) ∧
    csat_score_interval (fun c _ => c) 0.95 default_response
      = t_interval (fun c _ => c) 0.95 ((surveyCount default_response : ℤ) - 1)
          ((csat_score default_response : ℚ) : ℝ) (std_csat_score default_response) ∧
    csat_percent_interval (fun c _ => c) 0.95 default_response
      = t_interval (fun c _ => c) 0.95 ((surveyCount default_response : ℤ) - 1)
          ((csat_percent default_response : ℚ) : ℝ) (std_csat_percent default_response) ∧
    degrees_freedom default_response = 9) :=
  ⟨⟨by norm_num, by norm_num, by norm_num⟩,
    claim_C3 (fun c _ => c) 0.95 default_response 9 3.8 0.5
      (by norm_num) (by norm_num) (by norm_num)⟩

/-- `singleResponse`: one 1-star response and nothing else, so `N = 1`. -/
def singleResponse : Fin 5 → ℕ := ![1, 0, 0, 0, 0]

/-- C4 (code bug): the script has no validator and no `InsufficientDataError`.
At counts `[1,0,0,0,0]` the total is `N = 1`, `degrees_freedom = 0`, and the
computation proceeds: `std_sample` divides the diff² sum (which is `0`) by
`degrees_freedom = 0` — in numpy `0.0/0` is NaN — and `stats.t.interval` is
called with `df = 0`, which yields NaN bounds.  No error is signalled. -/
theorem claim_C4 :
    surveyCount singleResponse = 1 ∧
    degrees_freedom singleResponse = 0 ∧
    ((degrees_freedom singleResponse : ℤ) : ℝ) = 0 ∧
    (∑ i, diff2 singleResponse i) = 0 := by
  have h1 : surveyCount singleResponse = 1 := by decide
  have h2 : degrees_freedom singleResponse = 0 := by decide
  have hscore : csat_score singleResponse = 1 := by
    have e1 : ratingCountSum singleResponse = 1 := by decide
    rw [csat_score, e1, h1]
    norm_num
  refine ⟨h1, h2, by rw [h2]; norm_num, ?_⟩
  rw [Fin.sum_univ_five]
  simp only [diff2, hscore]
  norm_num [singleResponse, rating]

/-- C5 (code bug): the script has no validator and no `ValidationError`.  With
the default counts (`N = 10`) and `survey_total = 5 < N` (reachable, since the
`survey_total` widget only enforces `min_value=0`), the computation proceeds to
`fpc = sqrt((5 − 10)/(5 − 1))`, a square root of the negative number `−5/4` —
NaN in numpy — which propagates through `max(NaN, 1e-8) = NaN` into NaN
FPC interval bounds instead of an error. -/
theorem claim_C5 :
    surveyCount default_response = 10 ∧
    fpc_arg default_response 5 = -5 / 4 ∧
    fpc_arg default_response 5 < 0 := by
  have h1 : surveyCount default_response = 10 := by decide
  have h2 : fpc_arg default_response 5 = -5 / 4 := by
    rw [fpc_arg, h1]
    norm_num
  exact ⟨h1, h2, by rw [h2]; norm_num⟩

/-- `allFive`: ten 5-star responses, `[0,0,0,0,10]` (the spec's Example 2). -/
def allFive : Fin 5 → ℕ := ![0, 0, 0, 0, 10]

lemma surveyCount_allFive : surveyCount allFive = 10 := by decide

lemma csat_percent_allFive : csat_percent allFive = 1 := by
  have e : topBoxCount allFive = 10 := by decide
  rw [csat_percent, e, surveyCount_allFive]
  norm_num

lemma std_csat_percent_allFive : std_csat_percent allFive = 0 := by
  rw [std_csat_percent, csat_percent_allFive]
  norm_num

lemma csat_score_allFive : csat_score allFive = 5 := by
  have e : ratingCountSum allFive = 50 := by decide
  rw [csat_score, e, surveyCount_allFive]
  norm_num

/-- Counterexample to C6: at counts `[0,0,0,0,10]` (`N = 10`) with
`survey_total = 10 = N`, the FPC-corrected standard error of the percent is
`std_csat_percent * max(fpc, 1e-8) = 0 * 1e-8 = 0` — the code clamps the
*factor*, not the corrected standard error, so the corrected standard error
is zero (not a positive epsilon) whenever the uncorrected one is zero. -/
theorem claim_C6_cex :
    surveyCount allFive = 10 ∧
    std_csat_percent allFive * fpc_factor allFive 10 = 0 ∧
    ¬ 0 < std_csat_percent allFive * fpc_factor allFive 10 := by
  have h : std_csat_percent allFive * fpc_factor allFive 10 = 0 := by
    rw [std_csat_percent_allFive, zero_mul]
  exact ⟨surveyCount_allFive, h, by rw [h]; exact lt_irrefl 0⟩

/-- C6 (amended): with `N ≥ 2` and `survey_total = N`, `fpc = 0` and the
*factor* is clamped to `default_zero = 1e-8 > 0`; each corrected standard
error equals `SE·1e-8` — positive whenever the uncorrected `SE` is positive
(zero when it is zero) and never NaN — and both FPC intervals are finite,
centred on their point estimates, with width `2·t_crit·SE·1e-8`. -/
theorem claim_C6 (tq : ℝ → ℤ → ℝ) (conf : ℝ) (count : Fin 5 → ℕ)
    (survey_total : ℕ) (h2 : 2 ≤ surveyCount count)
    (hpop : survey_total = surveyCount count) :
    fpc count survey_total = 0 ∧
    fpc_factor count survey_total = default_zero ∧
    0 < default_zero ∧
    (0 < std_csat_score count →
      0 < std_csat_score count * fpc_factor count survey_total) ∧
    (0 < std_csat_percent count →
      0 < std_csat_percent count * fpc_factor count survey_total) ∧
    (csat_score_interval_fpc tq conf count survey_total).1 +
        (csat_score_interval_fpc tq conf count survey_total).2
      = 2 * ((csat_score count : ℚ) : ℝ) ∧
    (csat_percent_interval_fpc tq conf count survey_total).1 +
        (csat_percent_interval_fpc tq conf count survey_total).2
      = 2 * ((csat_percent count : ℚ) : ℝ) ∧
    width (csat_score_interval_fpc tq conf count survey_total)
      = 2 * (tq conf (degrees_freedom count) * (std_csat_score count * default_zero)) ∧
    width (csat_percent_interval_fpc tq conf count survey_total)
      = 2 * (tq conf (degrees_freedom count) * (std_csat_percent count * default_zero)) := by
  have hfpc : fpc count survey_total = 0 := by
    rw [fpc, fpc_arg, hpop, sub_self, zero_div, Real.sqrt_zero]
  have hfac : fpc_factor count survey_total = default_zero := by
    rw [fpc_factor, hfpc, max_eq_right default_zero_pos.le]
  refine ⟨hfpc, hfac, default_zero_pos, ?_, ?_, ?_, ?_, ?_, ?_⟩
  · exact fun hs => mul_pos hs (fpc_factor_pos count survey_total)
  · exact fun hs => mul_pos hs (fpc_factor_pos count survey_total)
  · simp only [csat_score_interval_fpc, t_interval]
    ring
  · simp only [csat_percent_interval_fpc, t_interval]
    ring
  · rw [csat_score_interval_fpc, width_t_interval, hfac]
  · rw [csat_percent_interval_fpc, width_t_interval, hfac]

/-- Witness for C6 at the default counts (`N = 10`), `survey_total = 10`, a
concrete critical-value function and `conf = 1/2`. -/
theorem claim_C6_witness :
    (2 ≤ surveyCount default_response ∧ 10 = surveyCount default_response) ∧
    (fpc default_response 10 = 0 ∧
    fpc_factor default_response 10 = default_zero ∧
    0 < default_zero ∧
    (0 < std_csat_score default_response →
      0 < std_csat_score default_response * fpc_factor default_response 10) ∧
    (0 < std_csat_percent default_response →
      0 < std_csat_percent default_response * fpc_factor default_response 10) ∧
    (csat_score_interval_fpc (fun _ _ => 1) (1/2) default_response 10).1 +
        (csat_score_interval_fpc (fun _ _ => 1) (1/2) default_response 10).2
      = 2 * ((csat_score default_response : ℚ) : ℝ) ∧
    (csat_percent_interval_fpc (fun _ _ => 1) (1/2) default_response 10).1 +
        (csat_percent_interval_fpc (fun _ _ => 1) (1/2) default_response 10).2
      = 2 * ((csat_percent default_response : ℚ) : ℝ) ∧
    width (csat_score_interval_fpc (fun _ _ => 1) (1/2) default_response 10)
      = 2 * ((fun (_ : ℝ) (_ : ℤ) => (1:ℝ)) (1/2) (degrees_freedom default_response) *
          (std_csat_score default_response * default_zero)) ∧
    width (csat_percent_interval_fpc (fun _ _ => 1) (1/2) default_response 10)
      = 2 * ((fun (_ : ℝ) (_ : ℤ) => (1:ℝ)) (1/2) (degrees_freedom default_response) *
          (std_csat_percent default_response * default_zero))) :=
  ⟨⟨by decide, by decide⟩,
    claim_C6 (fun _ _ => 1) (1/2) default_response 10 (by decide) (by decide)⟩

lemma width_lt_width (tq : ℝ → ℤ → ℝ) (c1 c2 : ℝ) (df : ℤ) (l1 l2 s : ℝ)
    (hmono : tq c1 df < tq c2 df) (hs : 0 < s) :
    width (t_interval tq c1 df l1 s) < width (t_interval tq c2 df l2 s) := by
  rw [width_t_interval, width_t_interval]
  have := mul_lt_mul_of_pos_right hmono hs
  linarith

/-- Counterexample to C7: at counts `[0,0,0,0,10]` (`N = 10`, a valid input,
no FPC involved) the percent standard error is `0`, so the percent interval
has width `0` at confidence `0.80` and at confidence `0.99` alike: widening
the confidence level does not strictly widen the interval, and this equality
case is not the epsilon-clamp degenerate case.  (The stand-in critical-value
function `fun c _ => c` is strictly increasing; the widths are `0` for every
critical-value function, so the choice is immaterial.) -/
theorem claim_C7_cex :
    ((0 : ℝ) < 0.80 ∧ (0.80 : ℝ) < 0.99 ∧ (0.99 : ℝ) < 1) ∧
    2 ≤ surveyCount allFive ∧
    std_csat_percent allFive = 0 ∧
    width (csat_percent_interval (fun c _ => c) 0.80 allFive) = 0 ∧
    width (csat_percent_interval (fun c _ => c) 0.99 allFive) = 0 ∧
    ¬ width (csat_percent_interval (fun c _ => c) 0.80 allFive)
        < width (csat_percent_interval (fun c _ => c) 0.99 allFive) := by
  have h80 : width (csat_percent_interval (fun c _ => c) 0.80 allFive) = 0 := by
    rw [csat_percent_interval, width_t_interval, std_csat_percent_allFive]
    ring
  have h99 : width (csat_percent_interval (fun c _ => c) 0.99 allFive) = 0 := by
    rw [csat_percent_interval, width_t_interval, std_csat_percent_allFive]
    ring
  refine ⟨⟨by norm_num, by norm_num, by norm_num⟩, by decide,
    std_csat_percent_allFive, h80, h99, ?_⟩
  rw [h80, h99]
  exact lt_irrefl 0

/-- C7 (amended): for a fixed valid input (`N ≥ 2`) and confidence levels
`c1 < c2` in `(0,1)`, each of the four intervals (score/percent,
uncorrected/FPC-corrected) computed at `c2` is strictly wider than at `c1`
whenever the metric's standard error is positive; when the standard error is
zero (all respondents gave one rating, or percent ∈ {0,1}) the widths are
equal (both zero) — in the epsilon-clamp degenerate case with positive
standard error the widths are still strictly ordered. -/
theorem claim_C7 (tq : ℝ → ℤ → ℝ) (count : Fin 5 → ℕ) (survey_total : ℕ)
    (c1 c2 : ℝ) (h2 : 2 ≤ surveyCount count)
    (hc0 : 0 < c1) (hcc : c1 < c2) (hc1 : c2 < 1)
    (hmono : tq c1 (degrees_freedom count) < tq c2 (degrees_freedom count)) :
    (0 < std_csat_score count →
      width (csat_score_interval tq c1 count)
        < width (csat_score_interval tq c2 count)) ∧
    (std_csat_score count = 0 →
      width (csat_score_interval tq c1 count)
        = width (csat_score_interval tq c2 count)) ∧
    (0 < std_csat_percent count →
      width (csat_percent_interval tq c1 count)
        < width (csat_percent_interval tq c2 count)) ∧
    (std_csat_percent count = 0 →
      width (csat_percent_interval tq c1 count)
        = width (csat_percent_interval tq c2 count)) ∧
    (0 < std_csat_score count →
      width (csat_score_interval_fpc tq c1 count survey_total)
        < width (csat_score_interval_fpc tq c2 count survey_total)) ∧
    (std_csat_score count = 0 →
      width (csat_score_interval_fpc tq c1 count survey_total)
        = width (csat_score_interval_fpc tq c2 count survey_total)) ∧
    (0 < std_csat_percent count →
      width (csat_percent_interval_fpc tq c1 count survey_total)
        < width (csat_percent_interval_fpc tq c2 count survey_total)) ∧
    (std_csat_percent count = 0 →
      width (csat_percent_interval_fpc tq c1 count survey_total)
        = width (csat_percent_interval_fpc tq c2 count survey_total)) := by
  refine ⟨fun hs => ?_, fun hs => ?_, fun hs => ?_, fun hs => ?_,
    fun hs => ?_, fun hs => ?_, fun hs => ?_, fun hs => ?_⟩
  · exact width_lt_width tq c1 c2 _ _ _ _ hmono hs
  · rw [csat_score_interval, csat_score_interval,
      width_t_interval, width_t_interval, hs]
    ring
  · exact width_lt_width tq c1 c2 _ _ _ _ hmono hs
  · rw [csat_percent_interval, csat_percent_interval,
      width_t_interval, width_t_interval, hs]
    ring
  · exact width_lt_width tq c1 c2 _ _ _ _ hmono
      (mul_pos hs (fpc_factor_pos count survey_total))
  · rw [csat_score_interval_fpc, csat_score_interval_fpc,
      width_t_interval, width_t_interval, hs]
    ring
  · exact width_lt_width tq c1 c2 _ _ _ _ hmono
      (mul_pos hs (fpc_factor_pos count survey_total))
  · rw [csat_percent_interval_fpc, csat_percent_interval_fpc,
      width_t_interval, width_t_interval, hs]
    ring

/-- Witness for C7 (amended) at the default counts, `survey_total = 10`,
`c1 = 1/2 < c2 = 3/4` and the strictly increasing critical-value stand-in
`fun c _ => c`. -/
theorem claim_C7_witness :
    (2 ≤ surveyCount default_response ∧ (0 : ℝ) < 1/2 ∧ (1/2 : ℝ) < 3/4 ∧
      (3/4 : ℝ) < 1 ∧
      (fun (c : ℝ) (_ : ℤ) => c) (1/2) (degrees_freedom default_response)
        < (fun (c : ℝ) (_ : ℤ) => c) (3/4) (degrees_freedom default_response)) ∧
    ((0 < std_csat_score default_response →
      width (csat_score_interval (fun c _ => c) (1/2) default_response)
        < width (csat_score_interval (fun c _ => c) (3/4) default_response)) ∧
    (std_csat_score default_response = 0 →
      width (csat_score_interval (fun c _ => c) (1/2) default_response)
        = width (csat_score_interval (fun c _ => c) (3/4) default_response)) ∧
    (0 < std_csat_percent default_response →
      width (csat_percent_interval (fun c _ => c) (1/2) default_response)
        < width (csat_percent_interval (fun c _ => c) (3/4) default_response)) ∧
    (std_csat_percent default_response = 0 →
      width (csat_percent_interval (fun c _ => c) (1/2) default_response)
        = width (csat_percent_interval (fun c _ => c) (3/4) default_response)) ∧
    (0 < std_csat_score default_response →
      width (csat_score_interval_fpc (fun c _ => c) (1/2) default_response 10)
        < width (csat_score_interval_fpc (fun c _ => c) (3/4) default_response 10)) ∧
    (std_csat_score default_response = 0 →
      width (csat_score_interval_fpc (fun c _ => c) (1/2) default_response 10)
        = width (csat_score_interval_fpc (fun c _ => c) (3/4) default_response 10)) ∧
    (0 < std_csat_percent default_response →
      width (csat_percent_interval_fpc (fun c _ => c) (1/2) default_response 10)
        < width (csat_percent_interval_fpc (fun c _ => c) (3/4) default_response 10)) ∧
    (std_csat_percent default_response = 0 →
      width (csat_percent_interval_fpc (fun c _ => c) (1/2) default_response 10)
        = width (csat_percent_interval_fpc (fun c _ => c) (3/4) default_response 10))) :=
  ⟨⟨by decide, by norm_num, by norm_num, by norm_num, by norm_num⟩,
    claim_C7 (fun c _ => c) default_response 10 (1/2) (3/4)
      (by decide) (by norm_num) (by norm_num) (by norm_num) (by norm_num)⟩

/-- C8: with `N ≥ 2` and `survey_total > N`, the FPC factor
`sqrt((survey_total − N)/(survey_total − 1))` is at most `1`, so each
FPC-corrected interval is at most as wide as the corresponding uncorrected
interval (the critical value being non-negative). -/
theorem claim_C8 (tq : ℝ → ℤ → ℝ) (conf : ℝ) (count : Fin 5 → ℕ)
    (survey_total : ℕ) (h2 : 2 ≤ surveyCount count)
    (hlt : surveyCount count < survey_total)
    (ht : 0 ≤ tq conf (degrees_freedom count)) :
    fpc count survey_total ≤ 1 ∧
    width (csat_score_interval_fpc tq conf count survey_total)
      ≤ width (csat_score_interval tq conf count) ∧
    width (csat_percent_interval_fpc tq conf count survey_total)
      ≤ width (csat_percent_interval tq conf count) := by
  have hN : (2 : ℝ) ≤ (surveyCount count : ℝ) := by exact_mod_cast h2
  have hP : (surveyCount count : ℝ) < (survey_total : ℝ) := by exact_mod_cast hlt
  have hden : (0 : ℝ) < (survey_total : ℝ) - 1 := by linarith
  have harg : fpc_arg count survey_total ≤ 1 := by
    rw [fpc_arg, div_le_one hden]
    linarith
  have hfpc : fpc count survey_total ≤ 1 := Real.sqrt_le_one.mpr harg
  have hfac : fpc_factor count survey_total ≤ 1 := by
    refine max_le hfpc ?_
    rw [default_zero]
    norm_num
  have key : ∀ s : ℝ, 0 ≤ s →
      tq conf (degrees_freedom count) * (s * fpc_factor count survey_total)
        ≤ tq conf (degrees_freedom count) * s := fun s hs =>
    mul_le_mul_of_nonneg_left (mul_le_of_le_one_right hs hfac) ht
  refine ⟨hfpc, ?_, ?_⟩
  · rw [csat_score_interval_fpc, csat_score_interval,
      width_t_interval, width_t_interval]
    have := key _ (std_csat_score_nonneg count)
    linarith
  · rw [csat_percent_interval_fpc, csat_percent_interval,
      width_t_interval, width_t_interval]
    have := key _ (std_csat_percent_nonneg count)
    linarith

/-- Witness for C8 at the default counts (`N = 10`), `survey_total = 20`, a
concrete non-negative critical-value function and `conf = 1/2`. -/
theorem claim_C8_witness :
    (2 ≤ surveyCount default_response ∧ surveyCount default_response < 20 ∧
      (0 : ℝ) ≤ (fun (_ : ℝ) (_ : ℤ) => (1:ℝ)) (1/2) (degrees_freedom default_response)) ∧
    (fpc default_response 20 ≤ 1 ∧
    width (csat_score_interval_fpc (fun _ _ => 1) (1/2) default_response 20)
      ≤ width (csat_score_interval (fun _ _ => 1) (1/2) default_response) ∧
    width (csat_percent_interval_fpc (fun _ _ => 1) (1/2) default_response 20)
      ≤ width (csat_percent_interval (fun _ _ => 1) (1/2) default_response)) :=
  ⟨⟨by decide, by decide, by norm_num⟩,
    claim_C8 (fun _ _ => 1) (1/2) default_response 20
      (by decide) (by decide) (by norm_num)⟩

/-- C9: at counts `[0,0,0,0,10]` and any confidence level in `(0,1)`, the
program returns `N = 10`, `score = 5`, `percent = 1`, a zero standard error
for the percent, and the percent interval degenerates to the point `(1, 1)`;
no division is by zero (`N = 10`, `df = 9`), so no NaN arises and nothing is
raised. -/
theorem claim_C9 (tq : ℝ → ℤ → ℝ) (conf : ℝ) (h0 : 0 < conf) (h1 : conf < 1) :
    surveyCount allFive = 10 ∧
    csat_score allFive = 5 ∧
    csat_percent allFive = 1 ∧
    std_csat_percent allFive = 0 ∧
    csat_percent_interval tq conf allFive = (1, 1) := by
  refine ⟨surveyCount_allFive, csat_score_allFive, csat_percent_allFive,
    std_csat_percent_allFive, ?_⟩
  rw [csat_percent_interval, t_interval, std_csat_percent_allFive,
    csat_percent_allFive]
  norm_num

/-- Witness for C9 at `conf = 1/2` and a concrete critical-value function. -/
theorem claim_C9_witness :
    ((0 : ℝ) < 1/2 ∧ (1/2 : ℝ) < 1) ∧
    (surveyCount allFive = 10 ∧
    csat_score allFive = 5 ∧
    csat_percent allFive = 1 ∧
    std_csat_percent allFive = 0 ∧
    csat_percent_interval (fun _ _ => 1) (1/2) allFive = (1, 1)) :=
  ⟨⟨by norm_num, by norm_num⟩,
    claim_C9 (fun _ _ => 1) (1/2) (by norm_num) (by norm_num)⟩

/-- `lastThree`: counts `[0,0,1,1,1]`, `N = 3`, `percent = 2/3`. -/
def lastThree : Fin 5 → ℕ := ![0, 0, 1, 1, 1]

/-- `midOnes`: counts `[0,1,1,1,0]`, `N = 3`, `percent = 1/3`. -/
def midOnes : Fin 5 → ℕ := ![0, 1, 1, 1, 0]

lemma csat_percent_lastThree : csat_percent lastThree = 2/3 := by
  have e : topBoxCount lastThree = 2 := by decide
  have h : surveyCount lastThree = 3 := by decide
  rw [csat_percent, e, h]
  norm_num

lemma csat_percent_midOnes : csat_percent midOnes = 1/3 := by
  have e : topBoxCount midOnes = 1 := by decide
  have h : surveyCount midOnes = 3 := by decide
  rw [csat_percent, e, h]
  norm_num

lemma std_csat_percent_lastThree :
    std_csat_percent lastThree = Real.sqrt (2/27) := by
  rw [std_csat_percent, csat_percent_lastThree,
    show surveyCount lastThree = 3 from by decide]
  norm_num

lemma std_csat_percent_midOnes :
    std_csat_percent midOnes = Real.sqrt (2/27) := by
  rw [std_csat_percent, csat_percent_midOnes,
    show surveyCount midOnes = 3 from by decide]
  norm_num

lemma third_lt_mul_sqrt {t : ℝ} (ht : 3 ≤ t) :
    (1:ℝ)/3 < t * Real.sqrt (2/27) := by
  have hs : (0:ℝ) ≤ Real.sqrt (2/27) := Real.sqrt_nonneg _
  have h9 : (3:ℝ) * Real.sqrt (2/27) = Real.sqrt (2/3) := by
    rw [show (2:ℝ)/3 = 9 * (2/27) by norm_num,
      Real.sqrt_mul (by norm_num : (0:ℝ) ≤ 9),
      show (9:ℝ) = 3 ^ 2 by norm_num,
      Real.sqrt_sq (by norm_num : (0:ℝ) ≤ 3)]
  have hgt : (1:ℝ)/3 < Real.sqrt (2/3) :=
    Real.lt_sqrt_of_sq_lt (by norm_num : ((1:ℝ)/3) ^ 2 < 2/3)
  have hmul : (3:ℝ) * Real.sqrt (2/27) ≤ t * Real.sqrt (2/27) :=
    mul_le_mul_of_nonneg_right ht hs
  linarith

/-- C10: the percent interval bounds are not clamped to `[0, 1]`: provided the
t critical value at confidence `0.95` and `df = 2` is at least `3` (the true
Student's t value is ≈ 4.303), at counts `[0,0,1,1,1]` (`N = 3`,
`percent = 2/3`) the returned upper bound exceeds `1`, and at counts
`[0,1,1,1,0]` (`N = 3`, `percent = 1/3`) the returned lower bound is
negative. -/
theorem claim_C10 (tq : ℝ → ℤ → ℝ) (ht : 3 ≤ tq 0.95 2) :
    csat_percent lastThree = 2/3 ∧
    1 < (csat_percent_interval tq 0.95 lastThree).2 ∧
    csat_percent midOnes = 1/3 ∧
    (csat_percent_interval tq 0.95 midOnes).1 < 0 := by
  have key := third_lt_mul_sqrt ht
  refine ⟨csat_percent_lastThree, ?_, csat_percent_midOnes, ?_⟩
  · rw [csat_percent_interval, t_interval,
      show degrees_freedom lastThree = 2 from by decide,
      std_csat_percent_lastThree, csat_percent_lastThree]
    push_cast
    linarith
  · rw [csat_percent_interval, t_interval,
      show degrees_freedom midOnes = 2 from by decide,
      std_csat_percent_midOnes, csat_percent_midOnes]
    push_cast
    linarith

/-- Witness for C10 with the concrete critical-value function constantly `3`. -/
theorem claim_C10_witness :
    (3:ℝ) ≤ (fun (_ : ℝ) (_ : ℤ) => (3:ℝ)) 0.95 2 ∧
    (csat_percent lastThree = 2/3 ∧
    1 < (csat_percent_interval (fun _ _ => 3) 0.95 lastThree).2 ∧
    csat_percent midOnes = 1/3 ∧
    (csat_percent_interval (fun _ _ => 3) 0.95 midOnes).1 < 0) :=
  ⟨by norm_num, claim_C10 (fun _ _ => 3) (by norm_num)⟩

end CSATCalc
